import Mathlib

/-!
Shallow embedding of the commit engine in
`src/ReactCommon/fabric/uimanager/ShadowTree.cpp` (the `ShadowTree` class of
a scene-graph commit protocol), together with proofs settling the frozen
claims about it.

Modelling conventions:
* `shared_ptr` identity is modelled by a `ptr : Nat` field carried by every
  heap object; `shared_ptr` comparison (`==`, `!=`, `std::replace`) becomes
  comparison of the `ptr` fields.
* Layout metrics are compared with `==` in the source; the model keeps a
  structure with decidable equality (integer components stand in for the
  numeric fields, only equality of metrics is ever used).
* Side effects (emitter enable/disable, `onLayout` dispatch, delegate
  notification) are collected into an explicit event trace, in the order
  the source performs the calls.
* External collaborators that live outside this translation unit (the
  layout algorithm and the structural differ) are parameters gathered in
  an `Externals` structure.
-/

namespace RN

/-- Numeric components of a layout rectangle origin. -/
structure Point where
  x : Int
  y : Int
deriving DecidableEq

/-- Numeric components of a size. -/
structure Size where
  width : Int
  height : Int
deriving DecidableEq

/-- A frame rectangle. -/
structure Rect where
  origin : Point
  size : Size
deriving DecidableEq

/-- Layout metrics attached to a shadow view; the source only ever compares
them with `==`, which this model realises as decidable structural equality. -/
structure LayoutMetrics where
  frame : Rect
deriving DecidableEq

/-- The event emitter reference held by a shadow view.  `ptr` is the
`shared_ptr` identity; `isViewEventEmitter` records whether
`std::dynamic_pointer_cast<const ViewEventEmitter>` on it succeeds. -/
structure EventEmitter where
  ptr : Nat
  isViewEventEmitter : Bool
deriving DecidableEq

/-- The props reference held by a shadow view.  `isViewProps` records
whether `std::dynamic_pointer_cast<const ViewProps>` succeeds; `onLayout`
is the `ViewProps::onLayout` flag (meaningful when the cast succeeds). -/
structure Props where
  isViewProps : Bool
  onLayout : Bool
deriving DecidableEq

/-- A `ShadowView` as referenced from a mutation record: the fields
`ShadowTree.cpp` reads are the event emitter, the props and the layout
metrics. -/
structure ShadowView where
  eventEmitter : EventEmitter
  props : Props
  layoutMetrics : LayoutMetrics
deriving DecidableEq

/-- `ShadowViewMutation::Type`. -/
inductive MutationType where
  | Create
  | Delete
  | Insert
  | Remove
  | Update
deriving DecidableEq

/-- A `ShadowViewMutation` record, restricted to the fields `ShadowTree.cpp`
reads: the type tag and the old/new child shadow views. -/
structure ShadowViewMutation where
  type : MutationType
  oldChildShadowView : ShadowView
  newChildShadowView : ShadowView
deriving DecidableEq

/-- Observable side effects performed by the engine, in call order. -/
inductive Event where
  | enableEmitter (ptr : Nat)
  | disableEmitter (ptr : Nat)
  | onLayout (ptr : Nat) (metrics : LayoutMetrics)
  | delegateDidCommit (mutations : List ShadowViewMutation)
deriving DecidableEq

/-- `ShadowTree::emitLayoutEvents`: one pass over the mutation list; each
mutation is skipped by the chain of `continue` guards of the source, and
otherwise contributes an `onLayout` call on the new child view's emitter
with the new child view's layout metrics. -/
def emitLayoutEvents (mutations : List ShadowViewMutation) : List Event :=
  mutations.filterMap fun mutation =>
    if mutation.type ≠ MutationType.Insert ∧ mutation.type ≠ MutationType.Update then
      none
    else if ¬ mutation.newChildShadowView.eventEmitter.isViewEventEmitter then
      none
    else if mutation.newChildShadowView.props.isViewProps ∧
        ¬ mutation.newChildShadowView.props.onLayout then
      none
    else if mutation.type ≠ MutationType.Update ∧
        mutation.oldChildShadowView.layoutMetrics =
          mutation.newChildShadowView.layoutMetrics then
      none
    else
      some (Event.onLayout mutation.newChildShadowView.eventEmitter.ptr
        mutation.newChildShadowView.layoutMetrics)

/-- First loop of `ShadowTree::toggleEventEmitters`: enable the new child
view's emitter of every `Create` mutation, in list order. -/
def enablePass (mutations : List ShadowViewMutation) : List Event :=
  mutations.filterMap fun mutation =>
    if mutation.type = MutationType.Create then
      some (Event.enableEmitter mutation.newChildShadowView.eventEmitter.ptr)
    else
      none

/-- Second loop of `ShadowTree::toggleEventEmitters`: disable the old child
view's emitter of every `Delete` mutation, in list order. -/
def disablePass (mutations : List ShadowViewMutation) : List Event :=
  mutations.filterMap fun mutation =>
    if mutation.type = MutationType.Delete then
      some (Event.disableEmitter mutation.oldChildShadowView.eventEmitter.ptr)
    else
      none

/-- `ShadowTree::toggleEventEmitters`: under the process-wide dispatch
mutex, run the enable loop over the whole list, then the disable loop. -/
def toggleEventEmitters (mutations : List ShadowViewMutation) : List Event :=
  enablePass mutations ++ disablePass mutations

/-- A generic (non-root) shadow node, restricted to the structure
`ShadowTree.cpp` traverses: the `shared_ptr` identity and the ordered child
list.  Child lists are shared by reference (copy-on-write), which the model
realises as immutable list values. -/
inductive ShadowNode where
  | mk (ptr : Nat) (children : List ShadowNode)

/-- The `shared_ptr` identity of a node. -/
def ShadowNode.ptr : ShadowNode → Nat
  | .mk p _ => p

/-- `ShadowNode::getChildren`. -/
def ShadowNode.getChildren : ShadowNode → List ShadowNode
  | .mk _ cs => cs

/-- Layout constraints are opaque to `ShadowTree.cpp` (constructed and
threaded through, never inspected). -/
abbrev LayoutConstraints := Nat

/-- Layout contexts are opaque to `ShadowTree.cpp`. -/
abbrev LayoutContext := Nat

/-- A `RootShadowNode`: `shared_ptr` identity, root props (the layout
constraints and context stored by `RootProps`), the child list, and the
layout metrics written by `layout()`. -/
structure RootShadowNode where
  ptr : Nat
  layoutConstraints : LayoutConstraints
  layoutContext : LayoutContext
  children : List ShadowNode
  layoutMetrics : LayoutMetrics

/-- View of a root shadow node as a generic shadow node (the upcast used
when the root is passed to `constructAncestorPath`). -/
def RootShadowNode.asShadowNode (r : RootShadowNode) : ShadowNode :=
  ShadowNode.mk r.ptr r.children

/-- The external collaborators of `ShadowTree.cpp`: the layout algorithm
(`RootShadowNode::layout`, which writes metrics in place into the unsealed
clone, preserving every node identity and the tree structure) and the
structural differ (`calculateShadowViewMutations`). -/
structure Externals where
  layoutRoot : RootShadowNode → LayoutMetrics
  calculateShadowViewMutations :
    RootShadowNode → RootShadowNode → List ShadowViewMutation

/-- Running `newRootShadowNode->layout(); newRootShadowNode->sealRecursive()`:
layout writes metrics into the same object (identity and children are
untouched); sealing only flips a runtime mutability flag and has no
observable effect in the model. -/
def Externals.layoutAndSeal (ext : Externals) (r : RootShadowNode) :
    RootShadowNode :=
  { r with layoutMetrics := ext.layoutRoot r }

/-- The mutable state of a `ShadowTree` instance: the surface identity, the
current-root slot `rootShadowNode_`, and whether a delegate is set. -/
structure ShadowTree where
  surfaceId : Nat
  rootShadowNode : RootShadowNode
  delegate : Bool

/-- `ShadowTree::getRootShadowNode` (a read of the current-root slot under
the commit mutex). -/
def ShadowTree.getRootShadowNode (st : ShadowTree) : RootShadowNode :=
  st.rootShadowNode

/-- `ShadowTree::cloneRootShadowNode`: build new `RootProps` carrying the
given constraints and context from the old root's props, and clone the old
root with those props.  `fresh` is the `shared_ptr` identity the new
`std::make_shared` allocation receives. -/
def cloneRootShadowNode (oldRootShadowNode : RootShadowNode)
    (layoutConstraints : LayoutConstraints) (layoutContext : LayoutContext)
    (fresh : Nat) : RootShadowNode :=
  { ptr := fresh
    layoutConstraints := layoutConstraints
    layoutContext := layoutContext
    children := oldRootShadowNode.children
    layoutMetrics := oldRootShadowNode.layoutMetrics }

/-- `ShadowTree::measure`: clone the current root with the given
constraints and context, lay the clone out, and return the frame size of
its layout metrics.  The method is `const`, never touches the root slot and
performs no observable side effect, so the model returns the unchanged
state and an empty event trace alongside the size. -/
def ShadowTree.measure (ext : Externals) (st : ShadowTree)
    (layoutConstraints : LayoutConstraints) (layoutContext : LayoutContext)
    (fresh : Nat) : Size × ShadowTree × List Event :=
  let newRootShadowNode :=
    cloneRootShadowNode (st.getRootShadowNode) layoutConstraints layoutContext
      fresh
  let laidOut := ext.layoutAndSeal newRootShadowNode
  (laidOut.layoutMetrics.frame.size, st, [])

/-- `ShadowTree::commit`: under the commit mutex, compare the base root
against the slot by `shared_ptr` identity; on mismatch return `false` with
no state change and no side effect; on match install the new root and run
the emitter toggling over the mutation list. -/
def ShadowTree.commit (st : ShadowTree)
    (oldRootShadowNode newRootShadowNode : RootShadowNode)
    (mutations : List ShadowViewMutation) : Bool × ShadowTree × List Event :=
  if oldRootShadowNode.ptr ≠ st.rootShadowNode.ptr then
    (false, st, [])
  else
    (true, { st with rootShadowNode := newRootShadowNode },
      toggleEventEmitters mutations)

/-- The canonical `ShadowTree::complete(oldRootShadowNode,
newRootShadowNode)`: lay out and seal the candidate, compute the mutation
list with the external differ, attempt the commit; on failure return
`false` having performed nothing further; on success run the layout-event
pass and, if a delegate is set, the delegate notification, and return
`true`. -/
def ShadowTree.complete (ext : Externals) (st : ShadowTree)
    (oldRootShadowNode newRootShadowNode : RootShadowNode) :
    Bool × ShadowTree × List Event :=
  let sealedRoot := ext.layoutAndSeal newRootShadowNode
  let mutations :=
    ext.calculateShadowViewMutations oldRootShadowNode sealedRoot
  let committed := st.commit oldRootShadowNode sealedRoot mutations
  if committed.1 then
    (true, committed.2.1,
      committed.2.2 ++ emitLayoutEvents mutations ++
        (if st.delegate then [Event.delegateDidCommit mutations] else []))
  else
    (false, committed.2.1, committed.2.2)

/-- `ShadowTree::complete(rootChildNodes)`: read the current root, clone it
with the child list replaced wholesale (`fresh` is the identity the new
allocation receives; the clone keeps the old root's props), and funnel into
the canonical `complete`. -/
def ShadowTree.completeWithChildren (ext : Externals) (st : ShadowTree)
    (rootChildNodes : List ShadowNode) (fresh : Nat) :
    Bool × ShadowTree × List Event :=
  let oldRootShadowNode := st.getRootShadowNode
  let newRootShadowNode :=
    { oldRootShadowNode with ptr := fresh, children := rootChildNodes }
  st.complete ext oldRootShadowNode newRootShadowNode

/-- `ShadowTree::~ShadowTree`: the destructor commits an empty child list
through `complete`. -/
def ShadowTree.teardown (ext : Externals) (st : ShadowTree) (fresh : Nat) :
    Bool × ShadowTree × List Event :=
  st.completeWithChildren ext [] fresh

mutual

/-- Modelled from the spec: `ShadowNode::constructAncestorPath` is declared
by the external scene-graph node contract and its body is not part of this
translation unit.  Per the spec it "resolves the unique ancestor chain from
`oldNode` to the current root" and "reports absence" with an empty chain
when the target is not reachable.  The chain is ordered from the target's
parent outward to (and including) the root, which is the order the rebuild
loop in `completeByReplacingShadowNode` consumes: each step's ancestor must
hold the previous step's node among its children, and the last ancestor is
the root whose substituted child list is handed to `complete`.  Reachability
is judged by `shared_ptr` identity (`targetPtr`). -/
def constructAncestorPath (targetPtr : Nat) : ShadowNode → List ShadowNode
  | .mk p cs =>
    if cs.any (fun c => c.ptr = targetPtr) then
      [ShadowNode.mk p cs]
    else
      match constructAncestorPathInForest targetPtr cs with
      | [] => []
      | path => path ++ [ShadowNode.mk p cs]

/-- Helper for `constructAncestorPath`: the ancestor chain of the target
inside the first child of the forest that contains it. -/
def constructAncestorPathInForest (targetPtr : Nat) :
    List ShadowNode → List ShadowNode
  | [] => []
  | c :: cs =>
    match constructAncestorPath targetPtr c with
    | [] => constructAncestorPathInForest targetPtr cs
    | path => path

end

/-- `std::replace(children.begin(), children.end(), oldChild, newChild)`
on a list of `shared_ptr`s: every element whose pointer equals `oldChild`'s
pointer is replaced by `newChild`. -/
def replaceChild (oldChild newChild : ShadowNode)
    (children : List ShadowNode) : List ShadowNode :=
  children.map fun c => if c.ptr = oldChild.ptr then newChild else c

/-- The rebuild loop of `ShadowTree::completeByReplacingShadowNode`: walk
the ancestor chain outward; at each ancestor substitute the old child with
the new one in its child list, remember that list, and clone the ancestor
with the substituted children (the clone's `std::make_shared` identity is
`freshPtrs i` at step `i`) to become the next step's new child.  Returns
the last substituted child list (the root's children). -/
def rebuildLoop (freshPtrs : Nat → Nat) :
    Nat → ShadowNode → ShadowNode → List ShadowNode → List ShadowNode →
      List ShadowNode
  | _, _, _, [], sharedChildren => sharedChildren
  | i, oldChild, newChild, ancestor :: rest, _ =>
    let children := replaceChild oldChild newChild ancestor.getChildren
    rebuildLoop freshPtrs (i + 1) ancestor (ShadowNode.mk (freshPtrs i) children)
      rest children

/-- `ShadowTree::completeByReplacingShadowNode`: construct the ancestor
path of the old node from the current root; if it is empty return `false`
(no commit, no side effect); otherwise rebuild the clone chain outward and
hand the substituted root child list to `complete(rootChildNodes)`.
`freshPtrs` supplies the identities of the ancestor clones and `rootFresh`
the identity of the new root allocated by `complete`. -/
def ShadowTree.completeByReplacingShadowNode (ext : Externals)
    (st : ShadowTree) (oldShadowNode newShadowNode : ShadowNode)
    (freshPtrs : Nat → Nat) (rootFresh : Nat) :
    Bool × ShadowTree × List Event :=
  let rootShadowNode := st.getRootShadowNode
  let ancestors :=
    constructAncestorPath oldShadowNode.ptr rootShadowNode.asShadowNode
  if ancestors.length = 0 then
    (false, st, [])
  else
    let sharedChildren :=
      rebuildLoop freshPtrs 0 oldShadowNode newShadowNode ancestors []
    st.completeWithChildren ext sharedChildren rootFresh

/-! ## Concrete fixtures used by witnesses and counterexamples -/

/-- Layout metrics with a square frame of the given side at the origin. -/
def squareMetrics (side : Int) : LayoutMetrics :=
  { frame :=
    { origin := { x := 0, y := 0 }
      size := { width := side, height := side } } }

/-- A root shadow node with pointer 1 and no children. -/
def witnessRoot : RootShadowNode :=
  { ptr := 1
    layoutConstraints := 0
    layoutContext := 0
    children := []
    layoutMetrics := squareMetrics 0 }

/-- A root object distinct from `witnessRoot` (pointer 5). -/
def staleRoot : RootShadowNode :=
  { witnessRoot with ptr := 5 }

/-- A candidate root object (pointer 2). -/
def candidateRoot : RootShadowNode :=
  { witnessRoot with ptr := 2 }

/-- A shadow tree whose slot holds `witnessRoot`, with a delegate set. -/
def witnessTree : ShadowTree :=
  { surfaceId := 0, rootShadowNode := witnessRoot, delegate := true }

/-- Concrete external collaborators: a layout algorithm assigning a fixed
square frame and a differ returning the empty mutation list. -/
def witnessExt : Externals :=
  { layoutRoot := fun _ => squareMetrics 7
    calculateShadowViewMutations := fun _ _ => [] }

/-- A shadow view over emitter pointer `emitterPtr`, with the two dynamic
casts succeeding or failing as given, the `onLayout` prop as given, and a
square frame of side `side`. -/
def viewWith (emitterPtr : Nat) (emitterIsView propsAreView onLayoutProp : Bool)
    (side : Int) : ShadowView :=
  { eventEmitter := { ptr := emitterPtr, isViewEventEmitter := emitterIsView }
    props := { isViewProps := propsAreView, onLayout := onLayoutProp }
    layoutMetrics := squareMetrics side }

/-! ## Helper lemmas -/

/-- A commit that reports failure changed nothing and emitted nothing. -/
theorem commit_eq_of_fst_false (st : ShadowTree)
    (oldRootShadowNode newRootShadowNode : RootShadowNode)
    (mutations : List ShadowViewMutation)
    (h : (st.commit oldRootShadowNode newRootShadowNode mutations).1 = false) :
    st.commit oldRootShadowNode newRootShadowNode mutations = (false, st, []) := by
  unfold ShadowTree.commit at h ⊢
  by_cases hc : oldRootShadowNode.ptr ≠ st.rootShadowNode.ptr
  · rw [if_pos hc]
  · rw [if_neg hc] at h
    simp at h

/-- A commit that reports success installed the new root and emitted the
emitter-toggle trace. -/
theorem commit_eq_of_fst_true (st : ShadowTree)
    (oldRootShadowNode newRootShadowNode : RootShadowNode)
    (mutations : List ShadowViewMutation)
    (h : (st.commit oldRootShadowNode newRootShadowNode mutations).1 = true) :
    st.commit oldRootShadowNode newRootShadowNode mutations =
      (true, { st with rootShadowNode := newRootShadowNode },
        toggleEventEmitters mutations) := by
  unfold ShadowTree.commit at h ⊢
  by_cases hc : oldRootShadowNode.ptr ≠ st.rootShadowNode.ptr
  · rw [if_pos hc] at h
    simp at h
  · rw [if_neg hc]

/-! ## Claim theorems -/

/-- Claim C1: for every call to `commit(oldRootShadowNode,
newRootShadowNode, mutations)`, if the base root is not the identical
object currently stored in the root slot (distinct `shared_ptr`
identities), `commit` returns `false` and the state is unchanged with no
side effect; if it is identical, `commit` installs `newRootShadowNode` in
the root slot, runs the emitter toggling over the mutation list, and
returns `true`. -/
theorem commit_stale_rejects_fresh_installs (st : ShadowTree)
    (oldRootShadowNode newRootShadowNode : RootShadowNode)
    (mutations : List ShadowViewMutation) :
    (oldRootShadowNode.ptr ≠ st.rootShadowNode.ptr →
      st.commit oldRootShadowNode newRootShadowNode mutations =
        (false, st, [])) ∧
    (oldRootShadowNode.ptr = st.rootShadowNode.ptr →
      st.commit oldRootShadowNode newRootShadowNode mutations =
        (true, { st with rootShadowNode := newRootShadowNode },
          toggleEventEmitters mutations)) := by
  constructor
  · intro h
    unfold ShadowTree.commit
    rw [if_pos h]
  · intro h
    unfold ShadowTree.commit
    rw [if_neg (by simp [h])]

/-- Witness for C1 at concrete inputs: a stale base (pointer 5 against a
slot holding pointer 1) is rejected with no change, and the identical base
is accepted. -/
theorem commit_stale_rejects_fresh_installs_witness :
    (witnessTree.commit staleRoot candidateRoot [] = (false, witnessTree, [])) ∧
    (witnessTree.commit witnessTree.rootShadowNode candidateRoot [] =
      (true, { witnessTree with rootShadowNode := candidateRoot },
        toggleEventEmitters [])) :=
  ⟨(commit_stale_rejects_fresh_installs witnessTree staleRoot candidateRoot []).1
      (by decide),
   (commit_stale_rejects_fresh_installs witnessTree
      witnessTree.rootShadowNode candidateRoot []).2 rfl⟩

/-- Claim C2: for every call to `complete(oldRootShadowNode,
newRootShadowNode)`, when the inner commit fails, `complete` returns
`false`, changes nothing and performs neither the layout-event pass nor the
delegate notification (empty event trace); when the commit succeeds, the
emitter toggling, the layout-event pass and — if a delegate is set — the
delegate notification all run, and `complete` returns `true`. -/
theorem complete_all_or_nothing (ext : Externals) (st : ShadowTree)
    (oldRootShadowNode newRootShadowNode : RootShadowNode) :
    ((st.commit oldRootShadowNode (ext.layoutAndSeal newRootShadowNode)
        (ext.calculateShadowViewMutations oldRootShadowNode
          (ext.layoutAndSeal newRootShadowNode))).1 = false →
      st.complete ext oldRootShadowNode newRootShadowNode =
        (false, st, [])) ∧
    ((st.commit oldRootShadowNode (ext.layoutAndSeal newRootShadowNode)
        (ext.calculateShadowViewMutations oldRootShadowNode
          (ext.layoutAndSeal newRootShadowNode))).1 = true →
      st.complete ext oldRootShadowNode newRootShadowNode =
        (true,
          { st with rootShadowNode := ext.layoutAndSeal newRootShadowNode },
          toggleEventEmitters
              (ext.calculateShadowViewMutations oldRootShadowNode
                (ext.layoutAndSeal newRootShadowNode)) ++
            emitLayoutEvents
              (ext.calculateShadowViewMutations oldRootShadowNode
                (ext.layoutAndSeal newRootShadowNode)) ++
            (if st.delegate then
              [Event.delegateDidCommit
                (ext.calculateShadowViewMutations oldRootShadowNode
                  (ext.layoutAndSeal newRootShadowNode))]
            else []))) := by
  constructor
  · intro h
    have hc := commit_eq_of_fst_false st _ _ _ h
    simp [ShadowTree.complete, hc]
  · intro h
    have hc := commit_eq_of_fst_true st _ _ _ h
    simp [ShadowTree.complete, hc]

/-- Witness for C2 at concrete inputs: a stale base makes `complete` return
`false` with no event; the current base makes it return `true` with the
toggle pass, the (here empty) layout-event pass and the delegate
notification. -/
theorem complete_all_or_nothing_witness :
    (witnessTree.complete witnessExt staleRoot candidateRoot =
      (false, witnessTree, [])) ∧
    (witnessTree.complete witnessExt witnessRoot candidateRoot =
      (true,
        { witnessTree with
            rootShadowNode := witnessExt.layoutAndSeal candidateRoot },
        [Event.delegateDidCommit []])) := by
  exact
    ⟨(complete_all_or_nothing witnessExt witnessTree staleRoot
        candidateRoot).1 rfl,
     (complete_all_or_nothing witnessExt witnessTree witnessRoot
        candidateRoot).2 rfl⟩

/-- A `Create` mutation satisfying every side condition of claim C3:
view-capable emitter, view props requesting layout notification, and
differing old/new layout metrics. -/
def c3CreateMutation : ShadowViewMutation :=
  { type := MutationType.Create
    oldChildShadowView := viewWith 3 true true true 0
    newChildShadowView := viewWith 3 true true true 5 }

/-- Counterexample to C3 as stated: a `Create` mutation whose emitter
supports layout notifications, whose props request layout notification and
whose old and new layout metrics differ produces no layout callback at all
— the notifier's first guard admits only `Insert` and `Update` mutations. -/
theorem create_mutation_no_layout_event :
    c3CreateMutation.type = MutationType.Create ∧
    c3CreateMutation.newChildShadowView.eventEmitter.isViewEventEmitter = true ∧
    c3CreateMutation.newChildShadowView.props.isViewProps = true ∧
    c3CreateMutation.newChildShadowView.props.onLayout = true ∧
    c3CreateMutation.oldChildShadowView.layoutMetrics ≠
      c3CreateMutation.newChildShadowView.layoutMetrics ∧
    emitLayoutEvents [c3CreateMutation] = [] := by
  decide

/-- Amended claim C3: for every mutation list processed by the layout-event
notifier, a mutation of type `Insert` (`Create` mutations are skipped by
the notifier's type guard) whose node's event emitter supports layout
notifications, whose properties request layout notification, and whose old
and new layout metrics differ, causes the layout callback to be invoked
with the new layout metrics. -/
theorem insert_mutation_emits_layout_event
    (mutations : List ShadowViewMutation) (m : ShadowViewMutation)
    (hm : m ∈ mutations) (htype : m.type = MutationType.Insert)
    (hemitter : m.newChildShadowView.eventEmitter.isViewEventEmitter = true)
    (hprops : m.newChildShadowView.props.isViewProps = true)
    (honLayout : m.newChildShadowView.props.onLayout = true)
    (hmetrics : m.oldChildShadowView.layoutMetrics ≠
      m.newChildShadowView.layoutMetrics) :
    Event.onLayout m.newChildShadowView.eventEmitter.ptr
      m.newChildShadowView.layoutMetrics ∈ emitLayoutEvents mutations := by
  unfold emitLayoutEvents
  rw [List.mem_filterMap]
  refine ⟨m, hm, ?_⟩
  simp [htype, hemitter, hprops, honLayout, hmetrics]

/-- An `Insert` mutation satisfying every side condition of amended C3. -/
def c3InsertMutation : ShadowViewMutation :=
  { type := MutationType.Insert
    oldChildShadowView := viewWith 3 true true true 0
    newChildShadowView := viewWith 3 true true true 5 }

/-- Witness for amended C3 at a concrete input. -/
theorem insert_mutation_emits_layout_event_witness :
    Event.onLayout 3 (squareMetrics 5) ∈ emitLayoutEvents [c3InsertMutation] := by
  exact insert_mutation_emits_layout_event [c3InsertMutation] c3InsertMutation
    (by decide) rfl rfl rfl rfl (by decide)

/-- An `Update` mutation whose old and new layout metrics are equal, with a
view-capable emitter and view props requesting layout notification. -/
def c4UpdateMutation : ShadowViewMutation :=
  { type := MutationType.Update
    oldChildShadowView := viewWith 4 true true true 5
    newChildShadowView := viewWith 4 true true true 5 }

/-- Counterexample to C4 as stated: an `Update` mutation whose old and new
layout metrics are numerically equal (with view-capable emitter and props
requesting layout notification) does trigger the layout callback — the
metrics-equality skip of the notifier applies only to non-`Update`
mutations. -/
theorem update_equal_metrics_layout_event :
    c4UpdateMutation.type = MutationType.Update ∧
    c4UpdateMutation.oldChildShadowView.layoutMetrics =
      c4UpdateMutation.newChildShadowView.layoutMetrics ∧
    c4UpdateMutation.newChildShadowView.eventEmitter.isViewEventEmitter = true ∧
    c4UpdateMutation.newChildShadowView.props.isViewProps = true ∧
    c4UpdateMutation.newChildShadowView.props.onLayout = true ∧
    emitLayoutEvents [c4UpdateMutation] = [Event.onLayout 4 (squareMetrics 5)] := by
  decide

/-- Amended claim C4: an `Update` mutation whose emitter supports and whose
props request layout notification triggers the layout callback regardless
of whether the old and new layout metrics are equal or differ — the
equal-metrics skip applies only to non-`Update` mutations; in particular an
`Update` whose metrics differ in any component does trigger it. -/
theorem update_mutation_always_emits_layout_event
    (mutations : List ShadowViewMutation) (m : ShadowViewMutation)
    (hm : m ∈ mutations) (htype : m.type = MutationType.Update)
    (hemitter : m.newChildShadowView.eventEmitter.isViewEventEmitter = true)
    (hprops : m.newChildShadowView.props.isViewProps = true)
    (honLayout : m.newChildShadowView.props.onLayout = true) :
    Event.onLayout m.newChildShadowView.eventEmitter.ptr
      m.newChildShadowView.layoutMetrics ∈ emitLayoutEvents mutations := by
  unfold emitLayoutEvents
  rw [List.mem_filterMap]
  refine ⟨m, hm, ?_⟩
  simp [htype, hemitter, hprops, honLayout]

/-- Witness for amended C4 at a concrete input (equal metrics). -/
theorem update_mutation_always_emits_layout_event_witness :
    Event.onLayout 4 (squareMetrics 5) ∈ emitLayoutEvents [c4UpdateMutation] := by
  exact update_mutation_always_emits_layout_event [c4UpdateMutation]
    c4UpdateMutation (by decide) rfl rfl rfl rfl

/-- Every event produced by the enable pass is an emitter enable. -/
theorem enablePass_only_enables (mutations : List ShadowViewMutation) :
    ∀ e ∈ enablePass mutations, ∃ p, e = Event.enableEmitter p := by
  intro e he
  unfold enablePass at he
  rw [List.mem_filterMap] at he
  obtain ⟨m, _, hf⟩ := he
  by_cases h : m.type = MutationType.Create
  · rw [if_pos h] at hf
    exact ⟨_, (Option.some_inj.mp hf).symm⟩
  · rw [if_neg h] at hf
    cases hf

/-- Every event produced by the disable pass is an emitter disable. -/
theorem disablePass_only_disables (mutations : List ShadowViewMutation) :
    ∀ e ∈ disablePass mutations, ∃ p, e = Event.disableEmitter p := by
  intro e he
  unfold disablePass at he
  rw [List.mem_filterMap] at he
  obtain ⟨m, _, hf⟩ := he
  by_cases h : m.type = MutationType.Delete
  · rw [if_pos h] at hf
    exact ⟨_, (Option.some_inj.mp hf).symm⟩
  · rw [if_neg h] at hf
    cases hf

/-- Claim C5: `toggleEventEmitters` makes two complete passes over the
mutation list — the first enables every `Create` mutation's new emitter,
the second disables every `Delete` mutation's old emitter — so within one
batch every enable is performed before any disable: whenever position `i`
of the trace is a disable and position `j` an enable, `j < i`. -/
theorem toggle_enables_before_disables (mutations : List ShadowViewMutation) :
    toggleEventEmitters mutations =
      enablePass mutations ++ disablePass mutations ∧
    (∀ m ∈ mutations, m.type = MutationType.Create →
      Event.enableEmitter m.newChildShadowView.eventEmitter.ptr ∈
        enablePass mutations) ∧
    (∀ m ∈ mutations, m.type = MutationType.Delete →
      Event.disableEmitter m.oldChildShadowView.eventEmitter.ptr ∈
        disablePass mutations) ∧
    (∀ e ∈ enablePass mutations, ∃ p, e = Event.enableEmitter p) ∧
    (∀ e ∈ disablePass mutations, ∃ p, e = Event.disableEmitter p) ∧
    (∀ (i j p q : Nat),
      (toggleEventEmitters mutations)[i]? = some (Event.disableEmitter p) →
      (toggleEventEmitters mutations)[j]? = some (Event.enableEmitter q) →
      j < i) := by
  refine ⟨rfl, ?_, ?_, enablePass_only_enables mutations,
    disablePass_only_disables mutations, ?_⟩
  · intro m hm hc
    unfold enablePass
    rw [List.mem_filterMap]
    exact ⟨m, hm, by rw [if_pos hc]⟩
  · intro m hm hd
    unfold disablePass
    rw [List.mem_filterMap]
    exact ⟨m, hm, by rw [if_pos hd]⟩
  · intro i j p q hdi hej
    by_cases hi : i < (enablePass mutations).length
    · rw [toggleEventEmitters, List.getElem?_append_left hi] at hdi
      obtain ⟨p', hp'⟩ :=
        enablePass_only_enables mutations _ (List.getElem?_mem hdi)
      cases hp'
    · push_neg at hi
      by_cases hj : j < (enablePass mutations).length
      · omega
      · push_neg at hj
        rw [toggleEventEmitters, List.getElem?_append_right hj] at hej
        obtain ⟨p', hp'⟩ :=
          disablePass_only_disables mutations _ (List.getElem?_mem hej)
        cases hp'

/-- A `Create` mutation over emitter pointer 8. -/
def c5CreateMutation : ShadowViewMutation :=
  { type := MutationType.Create
    oldChildShadowView := viewWith 8 true true true 0
    newChildShadowView := viewWith 8 true true true 5 }

/-- A `Delete` mutation over emitter pointer 9, listed in the batch before
the `Create` to make the two-pass reordering observable. -/
def c5DeleteMutation : ShadowViewMutation :=
  { type := MutationType.Delete
    oldChildShadowView := viewWith 9 true true true 5
    newChildShadowView := viewWith 9 true true true 0 }

/-- Witness for C5 at a concrete batch listing the `Delete` first: the
enable still lands at position 0 of the trace, strictly before the disable
at position 1. -/
theorem toggle_enables_before_disables_witness :
    Event.enableEmitter 8 ∈ enablePass [c5DeleteMutation, c5CreateMutation] ∧
    Event.disableEmitter 9 ∈ disablePass [c5DeleteMutation, c5CreateMutation] ∧
    (0 : Nat) < 1 := by
  refine ⟨?_, ?_, ?_⟩
  · exact (toggle_enables_before_disables [c5DeleteMutation, c5CreateMutation]).2.1
      c5CreateMutation (by decide) rfl
  · exact (toggle_enables_before_disables
      [c5DeleteMutation, c5CreateMutation]).2.2.1 c5DeleteMutation (by decide) rfl
  · exact (toggle_enables_before_disables
      [c5DeleteMutation, c5CreateMutation]).2.2.2.2.2 1 0 9 8 (by decide) (by decide)

/-- Claim C6: a targeted replacement whose constructed ancestor path is
empty (the old node is not reachable from the current root) returns
`false`, leaves the state — in particular the current root's identity —
unchanged, and performs no commit and no notification (empty event
trace). -/
theorem replace_unreachable_is_noop (ext : Externals) (st : ShadowTree)
    (oldShadowNode newShadowNode : ShadowNode) (freshPtrs : Nat → Nat)
    (rootFresh : Nat)
    (h : constructAncestorPath oldShadowNode.ptr
      st.rootShadowNode.asShadowNode = []) :
    st.completeByReplacingShadowNode ext oldShadowNode newShadowNode
      freshPtrs rootFresh = (false, st, []) := by
  unfold ShadowTree.completeByReplacingShadowNode
  simp [ShadowTree.getRootShadowNode, h]

/-- Witness for C6 at a concrete input: the tree's root has no children,
so node 99 is unreachable and the replacement is a rejected no-op. -/
theorem replace_unreachable_is_noop_witness :
    constructAncestorPath 99 witnessTree.rootShadowNode.asShadowNode = [] ∧
    witnessTree.completeByReplacingShadowNode witnessExt (ShadowNode.mk 99 [])
      (ShadowNode.mk 98 []) (fun i => 100 + i) 50 = (false, witnessTree, []) :=
  ⟨rfl,
   replace_unreachable_is_noop witnessExt witnessTree (ShadowNode.mk 99 [])
     (ShadowNode.mk 98 []) (fun i => 100 + i) 50 rfl⟩

/-- Claim C7: for a current root with children `[A, B, C]`, a targeted
replacement of `B` (whose pointer differs from its siblings') by `Bnew`
succeeds and commits a root whose children are `[A, Bnew, C]`, where `A`
and `C` are the identical references held before the call; the committed
root is the fresh clone (`rootFresh`), distinct from the previous root
object.  Pre-existing nodes are immutable values in the model, so no node
existing before the call is mutated. -/
theorem targeted_replacement_shares_siblings (ext : Externals)
    (st : ShadowTree) (a b bNew c : ShadowNode) (freshPtrs : Nat → Nat)
    (rootFresh : Nat) (hch : st.rootShadowNode.children = [a, b, c])
    (hab : a.ptr ≠ b.ptr) (hcb : c.ptr ≠ b.ptr)
    (hfresh : rootFresh ≠ st.rootShadowNode.ptr) :
    (st.completeByReplacingShadowNode ext b bNew freshPtrs rootFresh).1 =
      true ∧
    (st.completeByReplacingShadowNode ext b bNew freshPtrs
        rootFresh).2.1.rootShadowNode.children = [a, bNew, c] ∧
    (st.completeByReplacingShadowNode ext b bNew freshPtrs
        rootFresh).2.1.rootShadowNode.ptr = rootFresh ∧
    (st.completeByReplacingShadowNode ext b bNew freshPtrs
        rootFresh).2.1.rootShadowNode.ptr ≠ st.rootShadowNode.ptr := by
  have hpath : constructAncestorPath b.ptr st.rootShadowNode.asShadowNode =
      [ShadowNode.mk st.rootShadowNode.ptr [a, b, c]] := by
    rw [RootShadowNode.asShadowNode, hch, constructAncestorPath]
    rw [if_pos]
    simp
  simp only [ShadowTree.completeByReplacingShadowNode,
    ShadowTree.getRootShadowNode]
  rw [hpath]
  simp [rebuildLoop, replaceChild, ShadowNode.getChildren, hab, hcb,
    ShadowTree.completeWithChildren, ShadowTree.getRootShadowNode,
    ShadowTree.complete, ShadowTree.commit, Externals.layoutAndSeal, hfresh]

/-- Concrete sibling nodes for the C7 witness. -/
def nodeA : ShadowNode := ShadowNode.mk 10 []

/-- The concrete replacement target for the C7 witness. -/
def nodeB : ShadowNode := ShadowNode.mk 11 []

/-- The concrete replacement node for the C7 witness. -/
def nodeBNew : ShadowNode := ShadowNode.mk 20 []

/-- Concrete sibling node for the C7 witness. -/
def nodeC : ShadowNode := ShadowNode.mk 12 []

/-- A tree whose root (pointer 1) has children `[nodeA, nodeB, nodeC]`. -/
def abcTree : ShadowTree :=
  { surfaceId := 0
    rootShadowNode :=
      { ptr := 1
        layoutConstraints := 0
        layoutContext := 0
        children := [nodeA, nodeB, nodeC]
        layoutMetrics := squareMetrics 0 }
    delegate := false }

/-- Witness for C7 at a concrete input. -/
theorem targeted_replacement_shares_siblings_witness :
    (abcTree.completeByReplacingShadowNode witnessExt nodeB nodeBNew
        (fun i => 100 + i) 50).1 = true ∧
    (abcTree.completeByReplacingShadowNode witnessExt nodeB nodeBNew
        (fun i => 100 + i) 50).2.1.rootShadowNode.children =
      [nodeA, nodeBNew, nodeC] ∧
    (abcTree.completeByReplacingShadowNode witnessExt nodeB nodeBNew
        (fun i => 100 + i) 50).2.1.rootShadowNode.ptr = 50 ∧
    (abcTree.completeByReplacingShadowNode witnessExt nodeB nodeBNew
        (fun i => 100 + i) 50).2.1.rootShadowNode.ptr ≠
      abcTree.rootShadowNode.ptr := by
  exact targeted_replacement_shares_siblings witnessExt abcTree nodeA nodeB
    nodeBNew nodeC (fun i => 100 + i) 50 rfl (by decide) (by decide) (by decide)

/-- Claim C8: the teardown commit run by the destructor — `complete` with
an empty child list over the current root — succeeds in the absence of any
interleaved commit (the model is sequential, so the base the destructor
reads is still the slot's content when the inner commit compares
identities): it returns `true` and installs the empty-children root, over
which the differ reports every live node deleted. -/
theorem teardown_commit_succeeds (ext : Externals) (st : ShadowTree)
    (fresh : Nat) :
    (st.teardown ext fresh).1 = true ∧
    (st.teardown ext fresh).2.1.rootShadowNode.children = [] ∧
    (st.teardown ext fresh).2.1.rootShadowNode.ptr = fresh := by
  unfold ShadowTree.teardown ShadowTree.completeWithChildren
  simp [ShadowTree.getRootShadowNode, ShadowTree.complete, ShadowTree.commit,
    Externals.layoutAndSeal]

/-- Claim C9: `measure` leaves the state — in particular the current root
reference — unchanged, performs no commit and produces no mutation list or
side effect (empty event trace), and returns the frame size of the
laid-out clone of the current root carrying the given constraints and
context. -/
theorem measure_is_pure (ext : Externals) (st : ShadowTree)
    (layoutConstraints : LayoutConstraints) (layoutContext : LayoutContext)
    (fresh : Nat) :
    (st.measure ext layoutConstraints layoutContext fresh).2.1 = st ∧
    (st.measure ext layoutConstraints layoutContext fresh).2.1.rootShadowNode.ptr =
      st.rootShadowNode.ptr ∧
    (st.measure ext layoutConstraints layoutContext fresh).2.2 = [] ∧
    (st.measure ext layoutConstraints layoutContext fresh).1 =
      (ext.layoutAndSeal (cloneRootShadowNode st.rootShadowNode
        layoutConstraints layoutContext fresh)).layoutMetrics.frame.size ∧
    (cloneRootShadowNode st.rootShadowNode layoutConstraints layoutContext
        fresh).layoutConstraints = layoutConstraints ∧
    (cloneRootShadowNode st.rootShadowNode layoutConstraints layoutContext
        fresh).layoutContext = layoutContext :=
  ⟨rfl, rfl, rfl, rfl, rfl, rfl⟩

/-- Claim C10: the props skip of the layout-event notifier applies only
when the new child view's props are castable to `ViewProps`: an `Insert` or
`Update` mutation whose props cast yields null but whose emitter supports
layout notifications is not skipped on the props check, and the layout
callback is invoked whenever the remaining (type/metrics) guard passes. -/
theorem non_view_props_do_not_skip_layout_event
    (mutations : List ShadowViewMutation) (m : ShadowViewMutation)
    (hm : m ∈ mutations)
    (htype : m.type = MutationType.Insert ∨ m.type = MutationType.Update)
    (hemitter : m.newChildShadowView.eventEmitter.isViewEventEmitter = true)
    (hcast : m.newChildShadowView.props.isViewProps = false)
    (hmetrics : m.type = MutationType.Update ∨
      m.oldChildShadowView.layoutMetrics ≠
        m.newChildShadowView.layoutMetrics) :
    Event.onLayout m.newChildShadowView.eventEmitter.ptr
      m.newChildShadowView.layoutMetrics ∈ emitLayoutEvents mutations := by
  unfold emitLayoutEvents
  rw [List.mem_filterMap]
  refine ⟨m, hm, ?_⟩
  rcases htype with h1 | h1
  · rcases hmetrics with h2 | h2
    · rw [h1] at h2
      simp at h2
    · simp [h1, h2, hemitter, hcast]
  · simp [h1, hemitter, hcast]

/-- An `Insert` mutation whose new child view's props are not view props
(and do not request layout notification), with a view-capable emitter and
differing metrics. -/
def c10InsertMutation : ShadowViewMutation :=
  { type := MutationType.Insert
    oldChildShadowView := viewWith 6 true false false 0
    newChildShadowView := viewWith 6 true false false 5 }

/-- Witness for C10 at a concrete input: the props of the new child view
are not view props, yet the callback fires. -/
theorem non_view_props_do_not_skip_layout_event_witness :
    Event.onLayout 6 (squareMetrics 5) ∈ emitLayoutEvents [c10InsertMutation] := by
  exact non_view_props_do_not_skip_layout_event [c10InsertMutation]
    c10InsertMutation (by decide) (Or.inl rfl) rfl rfl (Or.inr (by decide))

end RN
